/-
Verification of the solar-position engine of trosat-base (src/trosat/sunpos.py)
against its natural-language specification.

The Python module computes sun ephemeris quantities with numpy floating-point
arithmetic.  We embed it shallowly over the real numbers: each Python function
becomes a Lean definition over ℝ, `np.remainder` becomes floor-based remainder,
numpy trig becomes Mathlib's real trig, and Python exceptions become `Except`
values.  Array semantics are elementwise, so scalar definitions carry the
content; where a claim hinges on genuine array behaviour (the truthiness test
of an ndarray) a list-based variant is embedded as well.
-/
import Mathlib

namespace Sunpos

noncomputable section

/-- Angle units of sunpos.py: the IntEnum `units` with members DEGREES,
RADIANS, HOURS (aliases DEG/D, RAD/R, HR/H omitted). -/
inductive units where
  | deg
  | rad
  | hr
  deriving DecidableEq

/-- Error kinds raised by sunpos.py, as abstract values:
`missingArgument` is the ValueError raised by right_ascension/declination when
time is None and l or ep is missing; `unsupportedTimeType` is the TypeError
raised by to_julday; `typeError` is Python's TypeError from arithmetic on
None; `ambiguousTruthValue` is numpy's ValueError from `bool(array)` on an
array with more than one element. -/
inductive Err where
  | missingArgument
  | unsupportedTimeType
  | typeError
  | ambiguousTruthValue
  deriving DecidableEq

/-- Real-number model of `np.remainder(x, y)`: x - y*floor(x/y), which for
y > 0 lies in [0, y). -/
def remainder (x y : ℝ) : ℝ := x - y * (⌊x / y⌋ : ℝ)

/-- Model of `np.deg2rad`. -/
def deg2rad (x : ℝ) : ℝ := x * Real.pi / 180

/-- Model of `np.rad2deg`. -/
def rad2deg (x : ℝ) : ℝ := x * 180 / Real.pi

/-- Model of `np.arctan2(y, x)`: the argument of the complex number x + i y. -/
def atan2 (y x : ℝ) : ℝ := Complex.arg ⟨x, y⟩

/-- Model of `to_units(x, from_units, to_units)` (sunpos.py line 68): identity
when the units coincide, otherwise one of the six linear maps of `mapfun`.
Units are passed as enum members; the case-insensitive string lookup of the
Python code is outside the scope of the claims. -/
def to_units (x : ℝ) (fromU toU : units) : ℝ :=
  if fromU = toU then x
  else
    match fromU, toU with
    | units.deg, units.rad => deg2rad x
    | units.deg, units.hr  => x / 15
    | units.rad, units.deg => rad2deg x
    | units.rad, units.hr  => x * 12 / Real.pi
    | units.hr,  units.deg => x * 15
    | units.hr,  units.rad => x / 12 * Real.pi
    | _, _ => x

/-- Dtype kinds an ndarray argument of `to_julday` can have: floating ('f'),
integer ('i'), object ('O'), datetime64 ('M'), or anything else (e.g. 'U'). -/
inductive Dkind where
  | flt
  | intk
  | obj
  | m8
  | other

/-- Input universe of `to_julday` (sunpos.py line 96).  A datetime.datetime is
modelled by its offset from the epoch in seconds, a np.datetime64 by its
offset in days; `seq k xs` models a list/ndarray whose np.array dtype kind is
`k`, with `xs` the elementwise values (for obj/m8 kinds: offsets from the
epoch in days); `pynone` is Python None, `otherScalar` any other scalar (e.g.
a complex number). -/
inductive TimeArg where
  | pynone
  | scalarFloat (x : ℝ)
  | scalarInt (n : ℤ)
  | scalarDatetime (secs : ℝ)
  | scalarDatetime64 (days : ℝ)
  | seq (k : Dkind) (xs : List ℝ)
  | otherScalar

/-- Model of `to_julday(time, epoch=EPOCH_JD2000_0)` (sunpos.py lines 96-139),
at the default epoch J2000.0.  Floats and float arrays are returned as is; a
datetime.datetime gives `(time - epoch).total_seconds()/86400`; a
np.datetime64 or an object/datetime64 array gives `(time - epoch)/ONE_DAY`
(the offsets being stored in days, this is the stored value); every other
input reaches the final `raise TypeError`. -/
def to_julday : TimeArg → Except Err (ℝ ⊕ List ℝ)
  | TimeArg.scalarFloat x => Except.ok (Sum.inl x)
  | TimeArg.scalarDatetime secs => Except.ok (Sum.inl (secs / 86400))
  | TimeArg.scalarDatetime64 days => Except.ok (Sum.inl days)
  | TimeArg.seq Dkind.flt xs => Except.ok (Sum.inr xs)
  | TimeArg.seq Dkind.obj xs => Except.ok (Sum.inr xs)
  | TimeArg.seq Dkind.m8 xs => Except.ok (Sum.inr xs)
  | _ => Except.error Err.unsupportedTimeType

/-- Modelled from the spec: the claim's notion of a "numeric" input
(a numeric scalar or numeric array), which includes integers. -/
def numeric_input : TimeArg → Bool
  | TimeArg.scalarFloat _ => true
  | TimeArg.scalarInt _ => true
  | TimeArg.seq Dkind.flt _ => true
  | TimeArg.seq Dkind.intk _ => true
  | _ => false

/-- Inputs on which `to_julday` succeeds, read off from its branches:
floating scalars/arrays and recognized timestamp representations. -/
def accepted_time : TimeArg → Bool
  | TimeArg.scalarFloat _ => true
  | TimeArg.scalarDatetime _ => true
  | TimeArg.scalarDatetime64 _ => true
  | TimeArg.seq Dkind.flt _ => true
  | TimeArg.seq Dkind.obj _ => true
  | TimeArg.seq Dkind.m8 _ => true
  | _ => false

/-- Model of `ecliptic_longitude(time, units=DEG)` (sunpos.py line 142) for a
float time, for which `to_julday` is the identity. -/
def ecliptic_longitude (jd : ℝ) (u : units) : ℝ :=
  let L := 280.460 + 0.9856474 * jd
  let g := deg2rad (357.528 + 0.9856003 * jd)
  let l := L + 1.915 * Real.sin g + 0.020 * Real.sin (2 * g)
  let l := remainder l 360
  if u = units.deg then l else to_units l units.deg u

/-- Model of `obliquity_of_ecliptic(time, units=DEG)` (sunpos.py line 167) for
a float time. -/
def obliquity_of_ecliptic (jd : ℝ) (u : units) : ℝ :=
  let ep := 23.439 - 0.0000004 * jd
  if u = units.deg then ep else to_units ep units.deg u

/-- Time-mode body of `right_ascension` (sunpos.py lines 210-225, `time is
not None` branch) for a float time. -/
def right_ascension_t (jd : ℝ) (u : units) : ℝ :=
  let l0 := ecliptic_longitude jd units.rad
  let cos_ep := Real.cos (obliquity_of_ecliptic jd units.rad)
  let l := remainder (l0 + Real.pi) (2 * Real.pi) - Real.pi
  let ra := atan2 (cos_ep * Real.sin l) (Real.cos l)
  if u = units.rad then ra else to_units ra units.rad u

/-- Precomputed-angles body of `right_ascension` (sunpos.py else branch with
l and ep both given, in degrees). -/
def right_ascension_le (lv ep : ℝ) (u : units) : ℝ :=
  let l0 := deg2rad lv
  let cos_ep := Real.cos (deg2rad ep)
  let l := remainder (l0 + Real.pi) (2 * Real.pi) - Real.pi
  let ra := atan2 (cos_ep * Real.sin l) (Real.cos l)
  if u = units.rad then ra else to_units ra units.rad u

/-- Model of `right_ascension(time=None, l=None, ep=None, units=RAD)`
(sunpos.py line 189).  A present time is a float (to_julday identity); when
time is None and l or ep is None the code raises
ValueError('time is None, so l and ep needed as arguments'). -/
def right_ascension (time l ep : Option ℝ) (u : units) : Except Err ℝ :=
  match time with
  | some t => Except.ok (right_ascension_t t u)
  | none =>
    match l, ep with
    | some lv, some epv => Except.ok (right_ascension_le lv epv u)
    | _, _ => Except.error Err.missingArgument

/-- Time-mode body of `declination` (sunpos.py lines 249-260).  Note: no
reduction of l into (-pi, pi] happens here, unlike right_ascension. -/
def declination_t (jd : ℝ) (u : units) : ℝ :=
  let l := ecliptic_longitude jd units.rad
  let sin_ep := Real.sin (obliquity_of_ecliptic jd units.rad)
  let dec := Real.arcsin (sin_ep * Real.sin l)
  if u = units.rad then dec else to_units dec units.rad u

/-- Precomputed-angles body of `declination`. -/
def declination_le (lv ep : ℝ) (u : units) : ℝ :=
  let l := deg2rad lv
  let sin_ep := Real.sin (deg2rad ep)
  let dec := Real.arcsin (sin_ep * Real.sin l)
  if u = units.rad then dec else to_units dec units.rad u

/-- Model of `declination(time=None, l=None, ep=None, units=RAD)`
(sunpos.py line 228), with the same argument-mode structure as
right_ascension. -/
def declination (time l ep : Option ℝ) (u : units) : Except Err ℝ :=
  match time with
  | some t => Except.ok (declination_t t u)
  | none =>
    match l, ep with
    | some lv, some epv => Except.ok (declination_le lv epv u)
    | _, _ => Except.error Err.missingArgument

/-- Body of `celestial_coordinates` for a float time (sunpos.py lines
279-285): shared sin/cos of the obliquity, reduction of l, then declination
and right ascension. -/
def celestial_coordinates_t (jd : ℝ) (u : units) : ℝ × ℝ :=
  let l0 := ecliptic_longitude jd units.rad
  let ep := obliquity_of_ecliptic jd units.rad
  let sin_ep := Real.sin ep
  let cos_ep := Real.cos ep
  let l := remainder (l0 + Real.pi) (2 * Real.pi) - Real.pi
  let dec := Real.arcsin (sin_ep * Real.sin l)
  let ra := atan2 (cos_ep * Real.sin l) (Real.cos l)
  if u = units.rad then (dec, ra)
  else (to_units dec units.rad u, to_units ra units.rad u)

/-- Model of `celestial_coordinates(time=None, units=RAD)` (sunpos.py line
262).  The function has no l/ep parameters; it passes `time` straight to
`to_julday`, so the default None reaches to_julday's final
`raise TypeError('Type of time argument not supported')`.  A present time is
a float, for which to_julday is the identity. -/
def celestial_coordinates (time : Option ℝ) (u : units) : Except Err (ℝ × ℝ) :=
  match time with
  | none => Except.error Err.unsupportedTimeType
  | some t => Except.ok (celestial_coordinates_t t u)

/-- Hours-valued core of `mean_sidereal_time(time, lon=None, units=HR)`
(sunpos.py lines 288-318) for a scalar float time and scalar lon.  The Python
`mst = gmst+lon/15 if lon else gmst` tests the truthiness of lon, so a
scalar lon equal to 0 (like None) selects the gmst branch. -/
def mean_sidereal_time_hr (jd : ℝ) (lon : Option ℝ) : ℝ :=
  let hh := remainder (jd - 0.5) 1 * 24
  let gmst := 6.697375 + 0.0657098242 * jd + hh
  let mst :=
    match lon with
    | some l => if l = 0 then gmst else gmst + l / 15
    | none => gmst
  remainder mst 24

/-- Model of `mean_sidereal_time` with unit conversion of the result. -/
def mean_sidereal_time (jd : ℝ) (lon : Option ℝ) (u : units) : ℝ :=
  let mst := mean_sidereal_time_hr jd lon
  if u = units.hr then mst else to_units mst units.hr u

/-- Model of numpy's `bool(array)`: False for an empty array, the truthiness
of the single element for a one-element array, and
ValueError('The truth value of an array with more than one element is
ambiguous') otherwise. -/
def ndarray_truth (xs : List ℝ) : Except Err Bool :=
  match xs with
  | [] => Except.ok false
  | [x] => Except.ok (if x = 0 then false else true)
  | _ => Except.error Err.ambiguousTruthValue

/-- Model of `mean_sidereal_time` for an array time (a float array passes
through to_julday unchanged) and an optional array lon.  The line
`mst = gmst+lon/15 if lon else gmst` evaluates `bool(lon)` on the ndarray,
which raises for arrays with more than one element; a truthy lon is therefore
necessarily a single-element array, broadcast over gmst. -/
def mean_sidereal_time_arr (jd : List ℝ) (lon : Option (List ℝ)) (u : units) :
    Except Err (List ℝ) :=
  let gmst := jd.map (fun t =>
    6.697375 + 0.0657098242 * t + remainder (t - 0.5) 1 * 24)
  let mstE : Except Err (List ℝ) :=
    match lon with
    | none => Except.ok gmst
    | some lv =>
      match ndarray_truth lv, lv with
      | Except.error e, _ => Except.error e
      | Except.ok true, [l] => Except.ok (gmst.map (fun g => g + l / 15))
      | Except.ok true, _ => Except.error Err.ambiguousTruthValue
      | Except.ok false, _ => Except.ok gmst
  match mstE with
  | Except.error e => Except.error e
  | Except.ok mst =>
    let mst := mst.map (fun m => remainder m 24)
    Except.ok (if u = units.hr then mst
               else mst.map (fun m => to_units m units.hr u))

/-- Model of `equation_of_time(time, units=HR)` (sunpos.py lines 320-325) for
a float time. -/
def equation_of_time (jd : ℝ) (u : units) : ℝ :=
  let gmst := mean_sidereal_time jd none units.hr
  let ra := right_ascension_t jd units.hr
  let eot := remainder (gmst - ra + 12) 24 - 12
  if u = units.hr then eot else to_units eot units.hr u

/-- Model of `apparent_time(time, lon=None, units=HR)` (sunpos.py lines
327-346): it computes the equation of time and then falls through to
`return None`. -/
def apparent_time (jd : ℝ) (lon : Option ℝ) (u : units) : Option ℝ :=
  let _eot := equation_of_time jd units.hr
  none

/-- Model of `hour_angle(time=None, lon=None, mst=None, ra=None, units=HR)`
(sunpos.py lines 349-381).  In time mode, mst and ra are computed internally
(ra in hours); in the precomputed mode, `ra` is converted from radians to
hours and a missing mst or ra makes the arithmetic on None raise TypeError.
The final line of the source is `return ha if units==HR else
to_units(ha, HR, DEG)`: any non-HOURS unit request converts to degrees. -/
def hour_angle (time lon mst ra : Option ℝ) (u : units) : Except Err ℝ :=
  match time with
  | some t =>
    let m := mean_sidereal_time t lon units.hr
    let r := right_ascension_t t units.hr
    let ha := remainder (m - r + 12) 24 - 12
    Except.ok (if u = units.hr then ha else to_units ha units.hr units.deg)
  | none =>
    match mst, ra with
    | some m, some r0 =>
      let r := to_units r0 units.rad units.hr
      let ha := remainder (m - r + 12) 24 - 12
      Except.ok (if u = units.hr then ha else to_units ha units.hr units.deg)
    | _, _ => Except.error Err.typeError

/-- Radians-valued core of `sun_angles(time, lat, lon, units=DEG)`
(sunpos.py lines 384-438) for a float time and scalar observer: returns the
pair (zenith, azimuth) before unit conversion. -/
def sun_angles_rad (jd lat lon : ℝ) : ℝ × ℝ :=
  let gmst := mean_sidereal_time jd none units.rad
  let dec := (celestial_coordinates_t jd units.rad).1
  let ra := (celestial_coordinates_t jd units.rad).2
  let sin_lat := Real.sin (deg2rad lat)
  let cos_lat := Real.cos (deg2rad lat)
  let sin_lon := Real.sin (deg2rad lon)
  let cos_lon := Real.cos (deg2rad lon)
  let sin_dec := Real.sin dec
  let cos_dec := Real.cos dec
  let gha := gmst - ra
  let sin_gha := Real.sin gha
  let cos_gha := Real.cos gha
  let sin_ha := sin_gha * cos_lon + cos_gha * sin_lon
  let cos_ha := cos_gha * cos_lon - sin_gha * sin_lon
  let mu0 := sin_dec * sin_lat + cos_dec * cos_lat * cos_ha
  let zen := Real.arccos mu0
  let sin_azi := -cos_dec * sin_ha
  let cos_azi := (sin_dec - mu0 * sin_lat) / cos_lat
  let azi := remainder (atan2 sin_azi cos_azi) (2 * Real.pi)
  (zen, azi)

/-- Model of `sun_angles` with the final unit conversion
`(zen,azi) if units==RAD else (to_units(zen,RAD,units),to_units(azi,RAD,units))`. -/
def sun_angles (jd lat lon : ℝ) (u : units) : ℝ × ℝ :=
  let za := sun_angles_rad jd lat lon
  if u = units.rad then za
  else (to_units za.1 units.rad u, to_units za.2 units.rad u)

/-- Model of `earth_sun_distance(time)` (sunpos.py line 441) for a float
time. -/
def earth_sun_distance (jd : ℝ) : ℝ :=
  let g := deg2rad (357.528 + 0.9856003 * jd)
  1.00014 - 0.01671 * Real.cos g + 0.00014 * Real.cos (2 * g)

/-- Helper: remainder as the divisor times the fractional part of the
quotient. -/
theorem remainder_eq_mul_fract (x y : ℝ) (hy : y ≠ 0) :
    remainder x y = y * Int.fract (x / y) := by
  unfold remainder Int.fract
  field_simp

/-- Helper: np.remainder with positive divisor is nonnegative. -/
theorem remainder_nonneg (x : ℝ) {y : ℝ} (hy : 0 < y) : 0 ≤ remainder x y := by
  rw [remainder_eq_mul_fract x y hy.ne']
  exact mul_nonneg hy.le (Int.fract_nonneg _)

/-- Helper: np.remainder with positive divisor is below the divisor. -/
theorem remainder_lt (x : ℝ) {y : ℝ} (hy : 0 < y) : remainder x y < y := by
  rw [remainder_eq_mul_fract x y hy.ne']
  calc y * Int.fract (x / y) < y * 1 :=
        mul_lt_mul_of_pos_left (Int.fract_lt_one _) hy
    _ = y := mul_one y

/-- C9: apparent_time computes the equation of time and then unconditionally
discards it, returning a null result (None) for every input. -/
theorem apparent_time_returns_none (t : ℝ) (lon : Option ℝ) (u : units) :
    apparent_time t lon u = none := rfl

/-- C10: for every time t, equation_of_time(t) in hours equals the Greenwich
hour angle hour_angle(t) (with lon omitted) in hours: both compute
remainder((GMST(t) - RA(t)) + 12, 24) - 12 from the same Greenwich mean
sidereal time and right ascension. -/
theorem equation_of_time_is_greenwich_hour_angle (t : ℝ) :
    hour_angle (some t) none none none units.hr
      = Except.ok (equation_of_time t units.hr) := rfl

/-- C6: to_julday applied to any supported representation of the reference
instant 2000-01-01T12:00 UTC (the float 0.0, a datetime.datetime of that
instant, a np.datetime64 of that instant, or an array of such timestamps)
returns exactly 0.0 (resp. an array of exact zeros) under the default epoch,
and a float (or float-dtype array) input is always returned unchanged. -/
theorem to_julday_epoch_zero :
    to_julday (TimeArg.scalarFloat 0) = Except.ok (Sum.inl 0)
  ∧ to_julday (TimeArg.scalarDatetime 0) = Except.ok (Sum.inl 0)
  ∧ to_julday (TimeArg.scalarDatetime64 0) = Except.ok (Sum.inl 0)
  ∧ to_julday (TimeArg.seq Dkind.m8 [0, 0]) = Except.ok (Sum.inr [0, 0])
  ∧ to_julday (TimeArg.seq Dkind.obj [0]) = Except.ok (Sum.inr [0])
  ∧ (∀ x : ℝ, to_julday (TimeArg.scalarFloat x) = Except.ok (Sum.inl x))
  ∧ (∀ xs : List ℝ, to_julday (TimeArg.seq Dkind.flt xs) = Except.ok (Sum.inr xs)) := by
  refine ⟨rfl, ?_, rfl, rfl, rfl, fun x => rfl, fun xs => rfl⟩
  simp [to_julday]

/-- C5 counterexample: the Python integer 1 is a numeric scalar, yet
to_julday raises the unsupported-time-type TypeError on it, so to_julday does
not succeed on every numeric scalar input. -/
theorem to_julday_rejects_integer :
    numeric_input (TimeArg.scalarInt 1) = true
  ∧ to_julday (TimeArg.scalarInt 1) = Except.error Err.unsupportedTimeType :=
  ⟨rfl, rfl⟩

/-- C5 amended: to_julday fails with the unsupported-time-type error exactly
for inputs that are neither floating-point (scalar or float array) nor a
recognized timestamp representation (datetime, datetime64, or an
object/datetime64 array); in particular integer scalars and integer arrays
are rejected; every floating scalar or floating array succeeds and is
returned unchanged. -/
theorem to_julday_domain_amended :
    (∀ a : TimeArg,
      to_julday a = Except.error Err.unsupportedTimeType ↔ accepted_time a = false)
  ∧ (∀ x : ℝ, to_julday (TimeArg.scalarFloat x) = Except.ok (Sum.inl x))
  ∧ (∀ xs : List ℝ, to_julday (TimeArg.seq Dkind.flt xs) = Except.ok (Sum.inr xs)) := by
  refine ⟨?_, fun x => rfl, fun xs => rfl⟩
  intro a
  cases a with
  | seq k xs => cases k <;> simp [to_julday, accepted_time]
  | _ => simp [to_julday, accepted_time]

/-- C4 counterexample: celestial_coordinates invoked without a time value
fails with the unsupported-time-type error, not with the missing-argument
error the claim requires (and it has no precomputed (l, ep) input mode at
all). -/
theorem celestial_coordinates_missing_time_error :
    celestial_coordinates none units.rad = Except.error Err.unsupportedTimeType
  ∧ Err.unsupportedTimeType ≠ Err.missingArgument :=
  ⟨rfl, by decide⟩

/-- C4 amended: right_ascension and declination each accept the two input
modes and fail with a missing-argument error exactly when the time argument
is absent and at least one of longitude/obliquity is also absent, succeeding
in mode (b) without a time value; celestial_coordinates accepts only a time
value (it has no longitude/obliquity parameters) and fails with an
unsupported-time-type error when time is absent. -/
theorem equatorial_input_modes_amended :
    (∀ (time l ep : Option ℝ) (u : units),
        (right_ascension time l ep u = Except.error Err.missingArgument
          ↔ time = none ∧ (l = none ∨ ep = none))
      ∧ (declination time l ep u = Except.error Err.missingArgument
          ↔ time = none ∧ (l = none ∨ ep = none)))
  ∧ (∀ (lv epv : ℝ) (u : units),
        right_ascension none (some lv) (some epv) u
          = Except.ok (right_ascension_le lv epv u)
      ∧ declination none (some lv) (some epv) u
          = Except.ok (declination_le lv epv u))
  ∧ (∀ u : units, celestial_coordinates none u = Except.error Err.unsupportedTimeType)
  ∧ (∀ (t : ℝ) (u : units),
        celestial_coordinates (some t) u = Except.ok (celestial_coordinates_t t u)) := by
  refine ⟨?_, fun lv epv u => ⟨rfl, rfl⟩, fun u => rfl, fun t u => rfl⟩
  intro time l ep u
  rcases time with _ | t <;> rcases l with _ | lv <;> rcases ep with _ | epv <;>
    simp [right_ascension, declination]

/-- C7: for every value x and every pair of angle units A, B, converting x
from A to B and back from B to A returns x (exactly, under real arithmetic),
and conversion with A = B is the identity. -/
theorem to_units_roundtrip (x : ℝ) (a b : units) :
    to_units (to_units x a b) b a = x ∧ to_units x a a = x := by
  have hpi := Real.pi_ne_zero
  constructor
  · cases a <;> cases b <;>
      simp [to_units, deg2rad, rad2deg] <;> field_simp <;> try ring
  · simp [to_units]

/-- Helper: the concrete remainder value behind the hour-angle evaluation. -/
theorem remainder_thirty_twentyfour : remainder 30 24 = 6 := by
  unfold remainder
  have h : ⌊(30 : ℝ) / 24⌋ = 1 := by
    rw [Int.floor_eq_iff]
    constructor <;> norm_num
  rw [h]
  norm_num

/-- C2 (code bug evaluation): hour_angle called with precomputed mst = 18 h
and ra = 0 rad and with RADIANS requested returns -90 — the hour angle
converted to degrees, because the source hardcodes to_units(ha, HR, DEG) —
which does not lie in the claimed radian range [-pi, pi). -/
theorem hour_angle_radians_bug :
    hour_angle none none (some 18) (some 0) units.rad = Except.ok (-90)
  ∧ ¬ (-Real.pi ≤ (-90 : ℝ) ∧ (-90 : ℝ) < Real.pi) := by
  constructor
  · have h0 : to_units 0 units.rad units.hr = 0 := by
      simp [to_units]
    simp only [hour_angle, h0]
    rw [show (18 : ℝ) - 0 + 12 = 30 by norm_num]
    rw [remainder_thirty_twentyfour]
    norm_num [to_units]
    rw [if_neg (show ¬ units.rad = units.hr by decide),
      if_neg (show ¬ units.hr = units.deg by decide)]
  · rintro ⟨h1, -⟩
    have hp := Real.pi_le_four
    linarith

/-- C3 (scalar part and code bug evaluation): for every scalar time t and
scalar longitude l (including l = 0), mean_sidereal_time matches the claimed
formula remainder(6.697375 + 0.0657098242 t + remainder(t - 0.5, 1) 24
+ l/15, 24), the lon/15 term is omitted when lon is not given, and the result
lies in [0, 24) hours; but for the array-shaped lon of the claim the
truthiness test `if lon` raises numpy's ambiguous-truth-value ValueError
instead of broadcasting. -/
theorem mean_sidereal_time_formula_and_array_lon :
    (∀ (t l : ℝ),
        mean_sidereal_time t (some l) units.hr
          = remainder (6.697375 + 0.0657098242 * t
              + remainder (t - 0.5) 1 * 24 + l / 15) 24
      ∧ mean_sidereal_time t none units.hr
          = remainder (6.697375 + 0.0657098242 * t
              + remainder (t - 0.5) 1 * 24) 24
      ∧ 0 ≤ mean_sidereal_time t (some l) units.hr
      ∧ mean_sidereal_time t (some l) units.hr < 24)
  ∧ mean_sidereal_time_arr [0] (some [0, 90]) units.hr
      = Except.error Err.ambiguousTruthValue := by
  refine ⟨?_, rfl⟩
  intro t l
  have hform : mean_sidereal_time t (some l) units.hr
      = remainder (6.697375 + 0.0657098242 * t
          + remainder (t - 0.5) 1 * 24 + l / 15) 24 := by
    by_cases h : l = 0
    · simp [mean_sidereal_time, mean_sidereal_time_hr, h]
    · simp [mean_sidereal_time, mean_sidereal_time_hr, h]
  refine ⟨hform, rfl, ?_, ?_⟩
  · rw [hform]
    exact remainder_nonneg _ (show (0 : ℝ) < 24 by norm_num)
  · rw [hform]
    exact remainder_lt _ (show (0 : ℝ) < 24 by norm_num)

/-- Helper: the zenith and azimuth computed in radians lie in [0, pi] and
[0, 2 pi) respectively: the zenith is an arccos value, the azimuth a
remainder modulo 2 pi. -/
theorem sun_angles_rad_bounds (jd lat lon : ℝ) :
    0 ≤ (sun_angles_rad jd lat lon).1 ∧ (sun_angles_rad jd lat lon).1 ≤ Real.pi
  ∧ 0 ≤ (sun_angles_rad jd lat lon).2
  ∧ (sun_angles_rad jd lat lon).2 < 2 * Real.pi := by
  unfold sun_angles_rad
  refine ⟨Real.arccos_nonneg _, Real.arccos_le_pi _, ?_, ?_⟩
  · exact remainder_nonneg _ Real.two_pi_pos
  · exact remainder_lt _ Real.two_pi_pos

/-- C1: for every time and observer latitude/longitude, sun_angles returns an
azimuth in [0, 360) degrees and a zenith in [0, 180] degrees when degrees are
requested, and an azimuth in [0, 2 pi) and a zenith in [0, pi] when radians
are requested. -/
theorem sun_angles_output_range (jd lat lon : ℝ) :
    (0 ≤ (sun_angles jd lat lon units.deg).2
      ∧ (sun_angles jd lat lon units.deg).2 < 360
      ∧ 0 ≤ (sun_angles jd lat lon units.deg).1
      ∧ (sun_angles jd lat lon units.deg).1 ≤ 180)
  ∧ (0 ≤ (sun_angles jd lat lon units.rad).2
      ∧ (sun_angles jd lat lon units.rad).2 < 2 * Real.pi
      ∧ 0 ≤ (sun_angles jd lat lon units.rad).1
      ∧ (sun_angles jd lat lon units.rad).1 ≤ Real.pi) := by
  obtain ⟨hz0, hzpi, ha0, ha2pi⟩ := sun_angles_rad_bounds jd lat lon
  have hpi := Real.pi_pos
  have hdeg : sun_angles jd lat lon units.deg
      = (rad2deg (sun_angles_rad jd lat lon).1, rad2deg (sun_angles_rad jd lat lon).2) := by
    simp [sun_angles, to_units]
  have hrad : sun_angles jd lat lon units.rad = sun_angles_rad jd lat lon := by
    simp [sun_angles]
  refine ⟨⟨?_, ?_, ?_, ?_⟩, ?_⟩
  · rw [hdeg]
    unfold rad2deg
    positivity
  · rw [hdeg]
    show rad2deg (sun_angles_rad jd lat lon).2 < 360
    unfold rad2deg
    rw [div_lt_iff₀ hpi]
    nlinarith
  · rw [hdeg]
    show 0 ≤ rad2deg (sun_angles_rad jd lat lon).1
    unfold rad2deg
    positivity
  · rw [hdeg]
    show rad2deg (sun_angles_rad jd lat lon).1 ≤ 180
    unfold rad2deg
    rw [div_le_iff₀ hpi]
    nlinarith
  · rw [hrad]
    exact ⟨ha0, ha2pi, hz0, hzpi⟩

end

end Sunpos
